import Mathlib

set_option maxRecDepth 4000

/-
  Verification of robustirc (the RobustIRC server node) against its
  natural-language specification.

  The embedding follows src/robustirc.go: the startup sequence of main,
  the deletestate wipe, the network-password resolution, joinMaster,
  the no-join peer checks, and the main select loop (shutdown check and
  session-expiry tick).  Components of the repository that are only
  called from this file (the IRC server, the FSM, compaction, and the
  raft library helpers) are modelled from the spec where a claim needs
  them; every such definition carries a doc comment saying so.
-/

namespace Robustirc

/- Raft node states, as exposed by the raft library and matched on in main. -/

inductive RaftState
  | follower
  | candidate
  | leader
  | shutdown
deriving DecidableEq, Repr

/- Record types of a RobustIRC log entry (spec section 3, data model). -/

inductive RobustType
  | createSession
  | deleteSession
  | ircFromClient
  | ircToClient
  | config
  | ping
deriving DecidableEq, Repr

/- A message id is structured as (committed index, reply sequence), spec section 3. -/

structure RobustId where
  index : Nat
  reply : Nat
deriving DecidableEq, Repr

/- A command record of the replicated log (spec section 3). -/

structure RobustMessage where
  id : RobustId
  session : Nat
  mtype : RobustType
  timestamp : Nat
  data : String
deriving DecidableEq, Repr

def emptyStr : String := ""

/- ------------------------------------------------------------------ -/
/- Startup phases of main, ordered by the source line in               -/
/- src/robustirc.go on which each occurs.                              -/
/- ------------------------------------------------------------------ -/

inductive StartupPhase
  | wipeDeletestate
  | deleteOldDatabases
  | deleteOldCompactionDbs
  | checkNetworkPassword
  | initIRCServer
  | initPeerStore
  | timesafeguardNetworkCheck
  | initSnapshotStore
  | initLogStore
  | initIRCStore
  | initRaft
  | serveHTTP
  | timesafeguardMasterCheck
  | joinNetwork
  | mainLoop
deriving DecidableEq, Repr

/-- Line of src/robustirc.go at which each startup phase of main happens;
main runs the phases strictly in source order, one after the other. -/
def phaseLine : StartupPhase → Nat
  | .wipeDeletestate => 326
  | .deleteOldDatabases => 336
  | .deleteOldCompactionDbs => 340
  | .checkNetworkPassword => 346
  | .initIRCServer => 362
  | .initPeerStore => 371
  | .timesafeguardNetworkCheck => 388
  | .initSnapshotStore => 404
  | .initLogStore => 438
  | .initIRCStore => 442
  | .initRaft => 456
  | .serveHTTP => 514
  | .timesafeguardMasterCheck => 521
  | .joinNetwork => 525
  | .mainLoop => 535

/- ------------------------------------------------------------------ -/
/- C4: the deletestate sentinel (src/robustirc.go lines 326 to 342).   -/
/- The data directory is modelled as the list of file names it holds.  -/
/- ------------------------------------------------------------------ -/

def deletestateName : String := "deletestate"

def compactionDbNameStart : String := "permanent-compaction.sqlite3"

/-- src/robustirc.go lines 326 to 334: if os.Stat on raftDir/deletestate
succeeds (the sentinel exists), os.RemoveAll deletes the directory and
os.Mkdir recreates it empty; otherwise nothing happens here. -/
def wipeIfDeletestate (dir : List String) : List String :=
  if deletestateName ∈ dir then [] else dir

/-- The strings.HasPrefix test from the Go standard library, on the
character sequences of the two strings. -/
def hasNameStart (s start : String) : Bool :=
  List.isPrefixOf start.data s.data

/-- src/robustirc.go lines 228 to 246 (deleteOldCompactionDatabases, called
at line 340): removes every file in the directory whose name starts with
permanent-compaction.sqlite3. -/
def deleteOldCompactionDatabases (names : List String) : List String :=
  names.filter (fun n => !(hasNameStart n compactionDbNameStart))

/-- The pre-init filesystem effect of main on the data directory: the
deletestate wipe (line 326) followed by deleteOldCompactionDatabases
(line 340).  outputstream.DeleteOldDatabases (line 336) is not under
src/ and only deletes further files, which cannot restore a file the
modelled steps removed. -/
def startupPreInit (dir : List String) : List String :=
  deleteOldCompactionDatabases (wipeIfDeletestate dir)

/- ------------------------------------------------------------------ -/
/- C5: network password resolution (src/robustirc.go lines 346 to 351).-/
/- none models log.Fatalf, which exits the process with a nonzero      -/
/- code before the server ever starts serving.                         -/
/- ------------------------------------------------------------------ -/

/-- src/robustirc.go lines 346 to 351: an empty -network_password flag is
replaced by the ROBUSTIRC_NETWORK_PASSWORD environment variable; if the
result is still empty, log.Fatalf terminates startup. -/
def resolveNetworkPassword (flagValue envValue : String) : Option String :=
  let pw := if flagValue = emptyStr then envValue else flagValue
  if pw = emptyStr then none else some pw

/- ------------------------------------------------------------------ -/
/- The main select loop (src/robustirc.go lines 533 to 558): a second  -/
/- ticker checking for raft state Shutdown, and the session-expiry     -/
/- timer re-armed with expireSessionsInterval on every firing.         -/
/- ------------------------------------------------------------------ -/

/-- src/robustirc.go line 42: expireSessionsInterval is 10 seconds. -/
def expireSessionsInterval : Nat := 10

/-- src/robustirc.go line 534: the shutdown check ticker fires every second. -/
def secondTickerInterval : Nat := 1

/-- src/robustirc.go line 553: ApplyMessageWait is called with a 10 second wait. -/
def applyMessageWaitSeconds : Nat := 10

/- A session as seen by the expiry loop: its handle, the time of its last
activity, and its time-to-live, all in seconds. -/

structure ExpirySession where
  session : Nat
  lastActivity : Nat
  ttl : Nat
deriving DecidableEq, Repr

/-- Modelled from the spec: the DeleteSession command proposed for an
expired session (ircserver is not under src/); spec section 3 lists
DeleteSession among the record types. -/
def deleteSessionMsg (session : Nat) : RobustMessage :=
  ⟨⟨0, 0⟩, session, RobustType.deleteSession, 0, emptyStr⟩

/-- Modelled from the spec: ircServer.ExpireSessions is not under src/;
per spec section 4.8 it enumerates the sessions whose last activity is
older than the per-session TTL and yields a DeleteSession command for
each. -/
def expireSessions (now : Nat) (sessions : List ExpirySession) : List RobustMessage :=
  (sessions.filter (fun e => e.lastActivity + e.ttl < now)).map
    (fun e => deleteSessionMsg e.session)

/- A proposal through the standard apply-message path: the message and
the number of seconds ApplyMessageWait waits for it. -/

structure Proposal where
  msg : RobustMessage
  waitSeconds : Nat
deriving DecidableEq, Repr

inductive LoopEvent
  | secondTick
  | expiryTimer
deriving DecidableEq, Repr

/- The outcome of one loop iteration: either log.Fatal ran (the message
was logged and the process exits with the given code), or the node keeps
running, having proposed the given messages; rearmExpiry is the delay
with which the expiry timer was re-armed, if this event re-armed it. -/

inductive LoopOutcome
  | fatalExit (logged : Bool) (exitCode : Nat)
  | keepRunning (proposals : List Proposal) (rearmExpiry : Option Nat)
deriving DecidableEq, Repr

/-- log.Fatal prints the message and exits the process with code 1. -/
def logFatalOutcome : LoopOutcome := .fatalExit true 1

/-- src/robustirc.go lines 535 to 558, one iteration of the select loop.
On a second tick, a node in raft state Shutdown runs log.Fatal; on the
expiry timer, the timer is re-armed first (line 542), then a node that
is not leader skips, and the leader proposes every message returned by
ExpireSessions with a 10 second ApplyMessageWait. -/
def mainLoopStep (ev : LoopEvent) (raftState : RaftState) (now : Nat)
    (sessions : List ExpirySession) : LoopOutcome :=
  match ev with
  | .secondTick =>
      if raftState = RaftState.shutdown then logFatalOutcome
      else .keepRunning [] none
  | .expiryTimer =>
      if raftState ≠ RaftState.leader then
        .keepRunning [] (some expireSessionsInterval)
      else
        .keepRunning
          ((expireSessions now sessions).map (fun m => ⟨m, applyMessageWaitSeconds⟩))
          (some expireSessionsInterval)

/- ------------------------------------------------------------------ -/
/- Startup peer checks and the timesafeguard (C7, C10).                -/
/- ------------------------------------------------------------------ -/

/- Outcome of a startup check: log.Fatal after sleeping the given number
of seconds, or the check passed and startup proceeds. -/

inductive StartupCheckOutcome
  | fatal (sleptSeconds : Nat)
  | proceed
deriving DecidableEq, Repr

/-- src/robustirc.go lines 373 to 392, the branch taken when neither
-join nor -singlenode is set: an empty stored peer list is fatal unless
the timesafeguard is disabled; a peer list holding only this node is
fatal after a 10 second sleep; otherwise
timesafeguard.SynchronizedWithNetwork runs and any error it returns is
fatal. -/
def noJoinStartupCheck (peerAddr : String) (peers : List String)
    (disableTimesafeguard : Bool) (tsErr : Option String) : StartupCheckOutcome :=
  if peers = [] then
    if disableTimesafeguard = false then .fatal 0 else .proceed
  else if peers = [peerAddr] then
    .fatal 10
  else
    match tsErr with
    | some _ => .fatal 0
    | none => .proceed

/-- src/robustirc.go line 373: the no-join checks run exactly when the
-join flag is empty and -singlenode is not set. -/
def startupPeerCheck (joinFlag : String) (singleNode : Bool) (peerAddr : String)
    (peers : List String) (disableTimesafeguard : Bool)
    (tsErr : Option String) : StartupCheckOutcome :=
  if joinFlag = emptyStr ∧ singleNode = false then
    noJoinStartupCheck peerAddr peers disableTimesafeguard tsErr
  else
    .proceed

/- Outcome of the join path (src/robustirc.go lines 520 to 527). -/

inductive JoinOutcome
  | fatalJoin
  | joined (peers : List String)
deriving DecidableEq, Repr

/-- src/robustirc.go lines 520 to 527: with -join set, the node first runs
timesafeguard.SynchronizedWithMasterAndNetwork; an error is fatal
(log.Fatal) and joinMaster never runs; otherwise joinMaster produces the
peer list. -/
def bootstrapJoin (tsErr : Option String) (joinResultPeers : List String) : JoinOutcome :=
  match tsErr with
  | some _ => .fatalJoin
  | none => .joined joinResultPeers

/- ------------------------------------------------------------------ -/
/- joinMaster (src/robustirc.go lines 182 to 225), claim C9.           -/
/- ------------------------------------------------------------------ -/

/- The parts of an HTTP response joinMaster looks at: the status code,
the Location header (the empty string when the header is absent, as
res.Header.Get returns), and the body. -/

structure HttpResponse where
  statusCode : Nat
  location : String
  body : String
deriving DecidableEq, Repr

inductive JoinResult
  | fatalResult
  | peersSet (peers : List String)
  | noResponse
deriving DecidableEq, Repr

/-- Modelled from the spec: raft.AddUniquePeer (hashicorp raft, not under
src/) returns the peer list unchanged when the address is already
present and appends it at the end otherwise. -/
def addUniquePeer (peers : List String) (addr : String) : List String :=
  if addr ∈ peers then peers else peers ++ [addr]

/-- src/robustirc.go lines 182 to 225 (joinMaster): a status above 399 is
fatal; a status above 299 is a redirect, fatal without a Location header
and otherwise retried against the host of the parsed Location; any
other status adds the contacted address to the stored peers through
AddUniquePeer and persists the result.  parseURL stands for url.Parse
of the Go standard library (not under src/), yielding the host of the
parsed URL or none on a parse error (which is fatal).  The responses
list holds the answers of the successively contacted masters; a run
that exhausts it is still blocked waiting (noResponse). -/
def joinMaster (parseURL : String → Option String) (addr : String)
    (responses : List HttpResponse) (storedPeers : List String) : JoinResult :=
  match responses with
  | [] => .noResponse
  | res :: rest =>
    if res.statusCode > 399 then .fatalResult
    else if res.statusCode > 299 then
      if res.location = emptyStr then .fatalResult
      else
        match parseURL res.location with
        | none => .fatalResult
        | some host => joinMaster parseURL host rest storedPeers
    else .peersSet (addUniquePeer storedPeers addr)

/- ------------------------------------------------------------------ -/
/- The replicated FSM (claim C1).  The fsm.Apply implementation is not  -/
/- under src/ (only the FSM construction at src/robustirc.go line 446  -/
/- is), so the state machine is modelled from the spec.                -/
/- ------------------------------------------------------------------ -/

structure SessionState where
  nick : String
  lastActivity : Nat
deriving DecidableEq, Repr

/- The aggregate IRC state of spec section 3, with the session table in
insertion order (spec section 4.4, deterministic iteration order). -/

structure IRCState where
  sessions : List (Nat × SessionState)
  lastProcessed : RobustId
deriving DecidableEq, Repr

/- One output stream record, keyed by (session, id), holding the ordered
output lines (spec section 3). -/

structure OutputRecord where
  id : RobustId
  session : Nat
  lines : List String
deriving DecidableEq, Repr

/- A node as the FSM driver sees it: the IRC state and the output stream
contents, both owned exclusively by the driver (spec section 3). -/

structure NodeState where
  st : IRCState
  output : List OutputRecord
deriving DecidableEq, Repr

/-- Modelled from the spec: fsm.Apply is not under src/.  Spec sections
4.4 and 4.6: a pure step routed by record type; CreateSession appends a
session, DeleteSession removes it, IRCFromClient updates the session
last-activity from the record timestamp and appends the interpreter
output for the raw line to the output stream, and every record advances
the last-processed id.  The per-verb interpreter cases are collapsed to
an echo of the raw line: claim C1 quantifies over all record sequences
and only compares the two runs with each other. -/
def applyRecord (n : NodeState) (m : RobustMessage) : NodeState :=
  let st := n.st
  match m.mtype with
  | RobustType.createSession =>
      ⟨⟨st.sessions ++ [(m.session, ⟨emptyStr, m.timestamp⟩)], m.id⟩, n.output⟩
  | RobustType.deleteSession =>
      ⟨⟨st.sessions.filter (fun p => p.1 ≠ m.session), m.id⟩, n.output⟩
  | RobustType.ircFromClient =>
      ⟨⟨st.sessions.map
          (fun p => if p.1 = m.session then (p.1, ⟨p.2.nick, m.timestamp⟩) else p),
        m.id⟩,
       n.output ++ [⟨m.id, m.session, [m.data]⟩]⟩
  | _ => ⟨⟨st.sessions, m.id⟩, n.output⟩

/-- A fresh node, first run: empty IRC state, empty output stream. -/
def freshNodeOne : NodeState := ⟨⟨[], ⟨0, 0⟩⟩, []⟩

/-- A fresh node, second run: empty IRC state, empty output stream. -/
def freshNodeTwo : NodeState := ⟨⟨[], ⟨0, 0⟩⟩, []⟩

/-- Apply folded over a sequence of committed records in commit order
(the raft library calls Apply in committed-index order, spec section 4.6). -/
def applySequence (records : List RobustMessage) (n : NodeState) : NodeState :=
  records.foldl applyRecord n

/- ------------------------------------------------------------------ -/
/- Compaction (claim C3).                                              -/
/- ------------------------------------------------------------------ -/

/-- src/robustirc.go lines 69 to 71: canary_compaction_start defaults to
0, and a value greater than 0 is a nanosecond UNIX timestamp taken as
the compaction start for deterministic results across runs. -/
def canaryCompactionStartDefault : Nat := 0

/-- Modelled from the spec: the compaction driver is not under src/; per
the flag documentation at src/robustirc.go line 71 and spec section
4.7, a canary_compaction_start greater than 0 is passed in as now,
otherwise the wall clock of the run is used. -/
def compactionNow (canaryStart wallClock : Nat) : Nat :=
  if canaryStart > 0 then canaryStart else wallClock

/-- Modelled from the spec: the retention horizon of spec section 4.7
(outputs delivered past the retention window); its concrete value is
irrelevant to the determinism claim. -/
def compactionRetention : Nat := 3600

/-- Modelled from the spec: log compaction (spec section 4.7) is not
under src/; an IRCFromClient record whose effect is past the retention
horizon relative to now is rewritten to a minimal placeholder, every
other record is kept, and the result is a pure function of (now, log). -/
def compactMessage (now : Nat) (m : RobustMessage) : RobustMessage :=
  if m.mtype = RobustType.ircFromClient ∧ m.timestamp + compactionRetention < now then
    ⟨m.id, m.session, RobustType.ping, m.timestamp, emptyStr⟩
  else m

/-- Compacting a log: the per-record rewrite over the whole log. -/
def compactLog (now : Nat) (log : List RobustMessage) : List RobustMessage :=
  log.map (compactMessage now)

/- ------------------------------------------------------------------ -/
/- The snapshot store (claim C8).                                      -/
/- ------------------------------------------------------------------ -/

/-- src/robustirc.go line 404: the file snapshot store is created with a
retain count of 5. -/
def snapshotRetainCount : Nat := 5

structure RaftSnapshot where
  index : Nat
  term : Nat
deriving DecidableEq, Repr

/-- Modelled from the spec: raft.FileSnapshotStore (hashicorp raft, not
under src/); per spec section 6 the snapshots directory keeps up to 5
raft snapshots: completing a new snapshot reaps all but the newest
retain-count snapshots. -/
def storeSnapshot (snaps : List RaftSnapshot) (s : RaftSnapshot) : List RaftSnapshot :=
  (s :: snaps).take snapshotRetainCount

/-- The snapshots directory contents after a sequence of snapshot
creations, starting from the empty directory. -/
def snapshotsAfter (created : List RaftSnapshot) : List RaftSnapshot :=
  created.foldl storeSnapshot []

end Robustirc

namespace Robustirc

/-- Claim C4 counterexample: with the sentinel absent but a file named
permanent-compaction.sqlite3 present, startup changes the directory
contents, so they are not left untouched. -/
theorem deletestate_untouched_counterexample :
    deletestateName ∉ [compactionDbNameStart] ∧
    startupPreInit [compactionDbNameStart] ≠ [compactionDbNameStart] := by
  decide

/-- Claim C4 (amended): if the deletestate sentinel exists in the data
directory it is wiped empty, and the wipe happens before every store,
raft and IRC-server initialization phase; the full wipe happens only
when the sentinel exists, but even without it startup deletes the files
whose names start with permanent-compaction.sqlite3 (and old
outputstream databases), leaving the rest untouched. -/
theorem deletestate_wipe (dir : List String) :
    (deletestateName ∈ dir → startupPreInit dir = []) ∧
    (deletestateName ∉ dir →
      startupPreInit dir =
        dir.filter (fun n => !(hasNameStart n compactionDbNameStart))) ∧
    phaseLine .wipeDeletestate < phaseLine .initIRCServer ∧
    phaseLine .wipeDeletestate < phaseLine .initSnapshotStore ∧
    phaseLine .wipeDeletestate < phaseLine .initLogStore ∧
    phaseLine .wipeDeletestate < phaseLine .initIRCStore ∧
    phaseLine .wipeDeletestate < phaseLine .initRaft := by
  refine ⟨?_, ?_, by decide, by decide, by decide, by decide, by decide⟩
  · intro h
    simp [startupPreInit, wipeIfDeletestate, h, deleteOldCompactionDatabases]
  · intro h
    simp [startupPreInit, wipeIfDeletestate, h, deleteOldCompactionDatabases]

/-- Claim C4 amended-theorem witness at a concrete directory. -/
theorem deletestate_wipe_witness :
    startupPreInit [deletestateName, compactionDbNameStart] = [] :=
  (deletestate_wipe [deletestateName, compactionDbNameStart]).1 (by decide)

/-- Claim C5: an empty -network_password flag falls back to the
ROBUSTIRC_NETWORK_PASSWORD environment variable; if both are empty,
startup resolves to the fatal outcome (modelled none, a nonzero exit),
and this check happens before the HTTP server starts serving. -/
theorem network_password_fallback (flagValue envValue : String) :
    (flagValue = emptyStr → envValue ≠ emptyStr →
      resolveNetworkPassword flagValue envValue = some envValue) ∧
    (flagValue = emptyStr → envValue = emptyStr →
      resolveNetworkPassword flagValue envValue = none) ∧
    (flagValue ≠ emptyStr →
      resolveNetworkPassword flagValue envValue = some flagValue) ∧
    phaseLine .checkNetworkPassword < phaseLine .serveHTTP := by
  refine ⟨?_, ?_, ?_, by decide⟩
  · intro hf he
    simp [resolveNetworkPassword, hf, he]
  · intro hf he
    simp [resolveNetworkPassword, hf, he]
  · intro hf
    simp [resolveNetworkPassword, hf]

/-- Claim C5 witness: concrete flag and environment values. -/
theorem network_password_fallback_witness :
    resolveNetworkPassword emptyStr deletestateName = some deletestateName ∧
    resolveNetworkPassword emptyStr emptyStr = none :=
  ⟨(network_password_fallback emptyStr deletestateName).1 rfl (by decide),
   (network_password_fallback emptyStr emptyStr).2.1 rfl rfl⟩

/-- Claim C6: on a second-ticker event (the ticker fires every second), a
node observing raft state Shutdown logs a message and terminates with a
nonzero exit code, and that outcome is never a keep-running outcome. -/
theorem shutdown_state_terminates (now : Nat) (sessions : List ExpirySession) :
    secondTickerInterval = 1 ∧
    mainLoopStep .secondTick .shutdown now sessions = logFatalOutcome ∧
    logFatalOutcome = LoopOutcome.fatalExit true 1 ∧
    (∀ proposals rearm,
      logFatalOutcome ≠ LoopOutcome.keepRunning proposals rearm) := by
  refine ⟨rfl, by simp [mainLoopStep], rfl, ?_⟩
  intro proposals rearm h
  exact LoopOutcome.noConfusion h

/-- Claim C2: the session-expiry timer is re-armed with a 10 second period
on every node; on a tick where the node is not Leader nothing is
proposed, and on a tick where it is Leader a DeleteSession command is
proposed through the apply-message path with a 10 second wait for every
session whose last activity is older than its TTL. -/
theorem session_expiry_loop (raftState : RaftState) (now : Nat)
    (sessions : List ExpirySession) :
    expireSessionsInterval = 10 ∧
    applyMessageWaitSeconds = 10 ∧
    (raftState ≠ RaftState.leader →
      mainLoopStep .expiryTimer raftState now sessions =
        LoopOutcome.keepRunning [] (some expireSessionsInterval)) ∧
    (raftState = RaftState.leader →
      mainLoopStep .expiryTimer raftState now sessions =
        LoopOutcome.keepRunning
          ((sessions.filter (fun e => e.lastActivity + e.ttl < now)).map
            (fun e => ⟨deleteSessionMsg e.session, applyMessageWaitSeconds⟩))
          (some expireSessionsInterval)) := by
  refine ⟨rfl, rfl, ?_, ?_⟩
  · intro h
    simp [mainLoopStep, h]
  · intro h
    subst h
    simp [mainLoopStep, expireSessions, List.map_map, Function.comp]

/-- Claim C2 witness: a follower tick proposes nothing; a leader tick with
one session idle past its TTL proposes exactly its DeleteSession with a
10 second wait, and the timer is re-armed with the 10 second period. -/
theorem session_expiry_loop_witness :
    mainLoopStep .expiryTimer .follower 20 [⟨7, 0, 5⟩] =
      LoopOutcome.keepRunning [] (some 10) ∧
    mainLoopStep .expiryTimer .leader 20 [⟨7, 0, 5⟩] =
      LoopOutcome.keepRunning [⟨deleteSessionMsg 7, 10⟩] (some 10) := by
  constructor
  · exact ((session_expiry_loop .follower 20 [⟨7, 0, 5⟩]).2.2.1 (by decide)).trans
      (by decide)
  · exact ((session_expiry_loop .leader 20 [⟨7, 0, 5⟩]).2.2.2 rfl).trans
      (by decide)

/-- Claim C7: a timesafeguard error (TimeSkew) at bootstrap is fatal: on
the join path the node terminates before joinMaster runs (the check at
line 521 precedes the join at line 525, and a fatal outcome is never a
joined outcome), and on the no-join path the check against the known
peers (line 388, before raft is created at line 456) is likewise fatal. -/
theorem timeskew_aborts_bootstrap (e peerAddr : String)
    (joinResultPeers peers : List String) (disableTimesafeguard : Bool)
    (hne : peers ≠ []) (hself : peers ≠ [peerAddr]) :
    bootstrapJoin (some e) joinResultPeers = JoinOutcome.fatalJoin ∧
    (∀ ps, JoinOutcome.fatalJoin ≠ JoinOutcome.joined ps) ∧
    noJoinStartupCheck peerAddr peers disableTimesafeguard (some e) =
      StartupCheckOutcome.fatal 0 ∧
    phaseLine .timesafeguardMasterCheck < phaseLine .joinNetwork ∧
    phaseLine .timesafeguardNetworkCheck < phaseLine .initRaft := by
  refine ⟨rfl, ?_, ?_, by decide, by decide⟩
  · intro ps h
    exact JoinOutcome.noConfusion h
  · simp [noJoinStartupCheck, hne, hself]

/-- Claim C7 witness: a concrete timesafeguard error with two known peers. -/
theorem timeskew_aborts_bootstrap_witness :
    bootstrapJoin (some emptyStr) [] = JoinOutcome.fatalJoin ∧
    noJoinStartupCheck emptyStr [deletestateName, compactionDbNameStart] false
      (some emptyStr) = StartupCheckOutcome.fatal 0 :=
  ⟨(timeskew_aborts_bootstrap emptyStr emptyStr []
      [deletestateName, compactionDbNameStart] false (by decide) (by decide)).1,
   (timeskew_aborts_bootstrap emptyStr emptyStr []
      [deletestateName, compactionDbNameStart] false (by decide)
      (by decide)).2.2.1⟩

/-- Claim C10: with neither -join nor -singlenode set, an empty stored
peer list is fatal unless the timesafeguard is explicitly disabled (in
which case startup proceeds); a stored peer list holding only this node
is fatal after a 10 second sleep; otherwise the timesafeguard check
runs and any error it returns is fatal while success proceeds. -/
theorem no_join_startup_checks (peerAddr : String) (peers : List String)
    (disableTimesafeguard : Bool) (tsErr : Option String) :
    (startupPeerCheck emptyStr false peerAddr peers disableTimesafeguard tsErr =
      noJoinStartupCheck peerAddr peers disableTimesafeguard tsErr) ∧
    (peers = [] → disableTimesafeguard = false →
      noJoinStartupCheck peerAddr peers disableTimesafeguard tsErr =
        StartupCheckOutcome.fatal 0) ∧
    (peers = [] → disableTimesafeguard = true →
      noJoinStartupCheck peerAddr peers disableTimesafeguard tsErr =
        StartupCheckOutcome.proceed) ∧
    (peers = [peerAddr] →
      noJoinStartupCheck peerAddr peers disableTimesafeguard tsErr =
        StartupCheckOutcome.fatal 10) ∧
    (peers ≠ [] → peers ≠ [peerAddr] →
      (∀ e, tsErr = some e →
        noJoinStartupCheck peerAddr peers disableTimesafeguard tsErr =
          StartupCheckOutcome.fatal 0) ∧
      (tsErr = none →
        noJoinStartupCheck peerAddr peers disableTimesafeguard tsErr =
          StartupCheckOutcome.proceed)) := by
  refine ⟨by simp [startupPeerCheck], ?_, ?_, ?_, ?_⟩
  · intro hp hd
    simp [noJoinStartupCheck, hp, hd]
  · intro hp hd
    simp [noJoinStartupCheck, hp, hd]
  · intro hp
    subst hp
    simp [noJoinStartupCheck]
  · intro hne hself
    constructor
    · intro e he
      subst he
      simp [noJoinStartupCheck, hne, hself]
    · intro he
      subst he
      simp [noJoinStartupCheck, hne, hself]

/-- Claim C10 witness: the empty-peers, self-only and two-peer cases at
concrete inputs. -/
theorem no_join_startup_checks_witness :
    noJoinStartupCheck deletestateName [] false none =
      StartupCheckOutcome.fatal 0 ∧
    noJoinStartupCheck deletestateName [deletestateName] true none =
      StartupCheckOutcome.fatal 10 ∧
    noJoinStartupCheck deletestateName [compactionDbNameStart, emptyStr] true none =
      StartupCheckOutcome.proceed :=
  ⟨(no_join_startup_checks deletestateName [] false none).2.1 rfl rfl,
   (no_join_startup_checks deletestateName [deletestateName] true none).2.2.2.1 rfl,
   ((no_join_startup_checks deletestateName [compactionDbNameStart, emptyStr] true
      none).2.2.2.2 (by decide) (by decide)).2 rfl⟩

/-- Claim C9: joinMaster follows a redirect (status 300 to 399) by
recursing on the host of the Location header; a status above 399, or a
redirect without a Location header, is fatal; on success the contacted
address is added with AddUniquePeer, so it appears exactly once in the
persisted peer list whenever it appeared at most once before. -/
theorem join_master_behavior (parseURL : String → Option String)
    (addr : String) (res : HttpResponse) (rest : List HttpResponse)
    (storedPeers : List String) :
    (300 ≤ res.statusCode → res.statusCode ≤ 399 → res.location ≠ emptyStr →
      ∀ host, parseURL res.location = some host →
        joinMaster parseURL addr (res :: rest) storedPeers =
          joinMaster parseURL host rest storedPeers) ∧
    (res.statusCode > 399 →
      joinMaster parseURL addr (res :: rest) storedPeers = JoinResult.fatalResult) ∧
    (300 ≤ res.statusCode → res.statusCode ≤ 399 → res.location = emptyStr →
      joinMaster parseURL addr (res :: rest) storedPeers = JoinResult.fatalResult) ∧
    (res.statusCode ≤ 299 →
      joinMaster parseURL addr (res :: rest) storedPeers =
        JoinResult.peersSet (addUniquePeer storedPeers addr)) ∧
    (storedPeers.count addr ≤ 1 →
      (addUniquePeer storedPeers addr).count addr = 1) := by
  refine ⟨?_, ?_, ?_, ?_, ?_⟩
  · intro h3 h9 hloc host hhost
    have hgt : ¬ res.statusCode > 399 := by omega
    have hgt2 : res.statusCode > 299 := by omega
    simp [joinMaster, hgt, hgt2, hloc, hhost]
  · intro h
    simp [joinMaster, h]
  · intro h3 h9 hloc
    have hgt : ¬ res.statusCode > 399 := by omega
    have hgt2 : res.statusCode > 299 := by omega
    simp [joinMaster, hgt, hgt2, hloc]
  · intro h
    have hgt : ¬ res.statusCode > 399 := by omega
    have hgt2 : ¬ res.statusCode > 299 := by omega
    simp [joinMaster, hgt, hgt2]
  · intro hle
    by_cases hmem : addr ∈ storedPeers
    · have hpos : 0 < storedPeers.count addr := List.count_pos_iff.mpr hmem
      simp only [addUniquePeer, if_pos hmem]
      omega
    · have hz : storedPeers.count addr = 0 := List.count_eq_zero.mpr hmem
      simp [addUniquePeer, hmem, List.count_append, hz]

/-- Claim C9 witness: a 500 response is fatal, and a direct 200 response
persists the contacted master exactly once. -/
theorem join_master_behavior_witness :
    joinMaster (fun _ => none) emptyStr [⟨500, emptyStr, emptyStr⟩] [] =
      JoinResult.fatalResult ∧
    joinMaster (fun _ => none) deletestateName [⟨200, emptyStr, emptyStr⟩] [] =
      JoinResult.peersSet [deletestateName] ∧
    [deletestateName].count deletestateName = 1 := by
  refine ⟨?_, ?_, by decide⟩
  · exact (join_master_behavior (fun _ => none) emptyStr ⟨500, emptyStr, emptyStr⟩
      [] []).2.1 (by decide)
  · exact ((join_master_behavior (fun _ => none) deletestateName
      ⟨200, emptyStr, emptyStr⟩ [] []).2.2.2.1 (by decide)).trans (by decide)

/-- Claim C1: for any sequence of committed records, applying it through
the FSM on two fresh nodes yields byte-identical IRC state and
byte-identical output stream contents: the modelled Apply is a pure
function of the record sequence alone, with no other input. -/
theorem apply_two_fresh_nodes_identical (records : List RobustMessage) :
    (applySequence records freshNodeOne).st =
      (applySequence records freshNodeTwo).st ∧
    (applySequence records freshNodeOne).output =
      (applySequence records freshNodeTwo).output :=
  ⟨rfl, rfl⟩

/-- Claim C3: compaction run twice over the same log with the same
positive canary_compaction_start passed in as now produces
byte-identical compacted logs, whatever the wall clocks of the two runs
were. -/
theorem compaction_deterministic (canaryStart wallClockA wallClockB : Nat)
    (h : 0 < canaryStart) (log : List RobustMessage) :
    compactLog (compactionNow canaryStart wallClockA) log =
      compactLog (compactionNow canaryStart wallClockB) log := by
  simp [compactionNow, h]

/-- Claim C3 witness: two runs with distinct wall clocks at a concrete
start value and log. -/
theorem compaction_deterministic_witness :
    compactLog (compactionNow 5 1) [deleteSessionMsg 7] =
      compactLog (compactionNow 5 2) [deleteSessionMsg 7] :=
  compaction_deterministic 5 1 2 (by decide) [deleteSessionMsg 7]

/-- Claim C8: starting from an empty snapshots directory, after any
sequence of snapshot creations the store holds at most 5 snapshots. -/
theorem snapshot_store_keeps_at_most_five (created : List RaftSnapshot) :
    (snapshotsAfter created).length ≤ 5 := by
  have h : ∀ (l : List RaftSnapshot) (init : List RaftSnapshot),
      init.length ≤ 5 → (l.foldl storeSnapshot init).length ≤ 5 := by
    intro l
    induction l with
    | nil =>
        intro init hinit
        simpa using hinit
    | cons s rest ih =>
        intro init hinit
        refine ih _ ?_
        show ((s :: init).take snapshotRetainCount).length ≤ 5
        rw [List.length_take]
        exact min_le_left _ _
  exact h created [] (by simp)

end Robustirc
